import Mathlib

/-!
Verification development for the collaborative-editing core of the
perplexi_quest repository (backend/app/collab/session_manager.py and
backend/app/collab/conflict_resolve.py).

The conflict resolver compares contents with Python's difflib
(`SequenceMatcher` with `isjunk = None`), so we first give an executable
embedding of the relevant parts of CPython's difflib: `get_opcodes`,
`get_matching_blocks`, `find_longest_match` and `ratio`.  The embedding is
generic in the element type (the resolver runs it both on lists of lines and
on lists of characters).  Rational numbers stand in for CPython floats; the
ratios compared here have tiny denominators, far below where binary rounding
could flip a comparison against 0.5 or 0.7.
-/

namespace Difflib

variable {α : Type} [DecidableEq α]

/-- Index list of every occurrence of `x` in `b`, ascending (difflib's `b2j`
before junk handling).  `isjunk` is `None` in the source, so no junk entries
are removed. -/
def b2jAll (b : List α) (x : α) : List Nat :=
  (List.range b.length).filter (fun j => b.get? j = some x)

/-- difflib's `b2j` after autojunk: for sequences of length at least 200,
elements occurring more than `1% + 1` times are dropped ("popular"
elements).  `bjunk` itself stays empty because `isjunk` is `None`. -/
def b2j (b : List α) (x : α) : List Nat :=
  let idxs := b2jAll b x
  if 200 ≤ b.length ∧ b.length / 100 + 1 < idxs.length then [] else idxs

/-- Lookup in the `j2len` association list, defaulting to 0 (difflib's
`j2len.get(j-1, 0)`). -/
def lookup0 (l : List (Nat × Nat)) (k : Nat) : Nat :=
  match l.find? (fun p => p.1 = k) with
  | some p => p.2
  | none => 0

/-- One row of the `find_longest_match` dynamic program: scan the match
positions of `a[i]` inside `[blo, bhi)`, extending runs recorded in `j2len`
and updating the best triple `(besti, bestj, bestsize)`. -/
def flmRow (blo bhi i : Nat) (js : List Nat) (j2len : List (Nat × Nat))
    (best : Nat × Nat × Nat) : List (Nat × Nat) × (Nat × Nat × Nat) :=
  (js.filter (fun j => blo ≤ j ∧ j < bhi)).foldl
    (fun st j =>
      let k := (if j = 0 then 0 else lookup0 j2len (j - 1)) + 1
      ((j, k) :: st.1,
        if st.2.2.2 < k then (i + 1 - k, j + 1 - k, k) else st.2))
    ([], best)

/-- The dynamic program of difflib's `find_longest_match`, before the
extension loops: returns the best `(besti, bestj, bestsize)`. -/
def flmDP (a : List α) (bj : α → List Nat) (alo ahi blo bhi : Nat) :
    Nat × Nat × Nat :=
  ((List.range' alo (ahi - alo)).foldl
    (fun st i =>
      match a.get? i with
      | none => ([], st.2)
      | some ai => flmRow blo bhi i (bj ai) st.1 st.2)
    ([], (alo, blo, 0))).2

/-- The first extension loop of `find_longest_match`: grow the match
downwards while the preceding elements agree (the junk variant of this loop
never fires because `bjunk` is empty). -/
def extendLower (a b : List α) (alo blo : Nat) :
    Nat → Nat → Nat → Nat × Nat × Nat
  | 0, j, k => (0, j, k)
  | i + 1, 0, k => (i + 1, 0, k)
  | i + 1, j + 1, k =>
    if alo ≤ i ∧ blo ≤ j ∧ (a.get? i).isSome ∧ a.get? i = b.get? j then
      extendLower a b alo blo i j (k + 1)
    else (i + 1, j + 1, k)

/-- The second extension loop of `find_longest_match`: grow the match
upwards while the following elements agree.  `fuel` only bounds the
recursion; `ahi` steps always suffice. -/
def extendUpper (a b : List α) (ahi bhi i j : Nat) :
    Nat → Nat → Nat
  | 0, k => k
  | fuel + 1, k =>
    if i + k < ahi ∧ j + k < bhi ∧ (a.get? (i + k)).isSome ∧
        a.get? (i + k) = b.get? (j + k) then
      extendUpper a b ahi bhi i j fuel (k + 1)
    else k

/-- difflib's `find_longest_match` on the slice `a[alo:ahi]`, `b[blo:bhi]`. -/
def findLongestMatch (a b : List α) (bj : α → List Nat)
    (alo ahi blo bhi : Nat) : Nat × Nat × Nat :=
  let best := flmDP a bj alo ahi blo bhi
  let low := extendLower a b alo blo best.1 best.2.1 best.2.2
  let k := extendUpper a b ahi bhi low.1 low.2.1 (ahi + 1) low.2.2
  (low.1, low.2.1, k)

/-- Recursive core of `get_matching_blocks`: split around the longest match
and recurse on both sides.  difflib drives this with an explicit stack and a
final sort; emitting the left part, the match, then the right part yields
exactly the sorted order.  `fuel` bounds the recursion depth;
`a.length + b.length + 1` always suffices. -/
def matchingBlocksAux (a b : List α) (bj : α → List Nat) :
    Nat → Nat → Nat → Nat → Nat → List (Nat × Nat × Nat)
  | 0, _, _, _, _ => []
  | fuel + 1, alo, ahi, blo, bhi =>
    let m := findLongestMatch a b bj alo ahi blo bhi
    if m.2.2 = 0 then []
    else
      (if alo < m.1 ∧ blo < m.2.1 then
        matchingBlocksAux a b bj fuel alo m.1 blo m.2.1
      else []) ++
      [m] ++
      (if m.1 + m.2.2 < ahi ∧ m.2.1 + m.2.2 < bhi then
        matchingBlocksAux a b bj fuel (m.1 + m.2.2) ahi (m.2.1 + m.2.2) bhi
      else [])

/-- Adjacent-block collapsing pass of `get_matching_blocks`. -/
def collapseAdjacent (cur : Nat × Nat × Nat) :
    List (Nat × Nat × Nat) → List (Nat × Nat × Nat)
  | [] => if cur.2.2 ≠ 0 then [cur] else []
  | blk :: rest =>
    if cur.1 + cur.2.2 = blk.1 ∧ cur.2.1 + cur.2.2 = blk.2.1 then
      collapseAdjacent (cur.1, cur.2.1, cur.2.2 + blk.2.2) rest
    else
      (if cur.2.2 ≠ 0 then [cur] else []) ++ collapseAdjacent blk rest

/-- difflib's `get_matching_blocks`: non-adjacent maximal matching blocks,
terminated by the sentinel `(len a, len b, 0)`. -/
def getMatchingBlocks (a b : List α) : List (Nat × Nat × Nat) :=
  collapseAdjacent (0, 0, 0)
    (matchingBlocksAux a b (b2j b) (a.length + b.length + 1)
      0 a.length 0 b.length) ++
  [(a.length, b.length, 0)]

/-- Opcode tags of difflib's `get_opcodes`. -/
inductive Tag where
  | replace
  | delete
  | insert
  | equal
deriving DecidableEq, Repr

/-- One opcode `(tag, i1, i2, j1, j2)`: `a[i1:i2]` versus `b[j1:j2]`. -/
structure Opcode where
  tag : Tag
  i1 : Nat
  i2 : Nat
  j1 : Nat
  j2 : Nat
deriving DecidableEq, Repr

/-- Walk the matching blocks, emitting replace/delete/insert opcodes for the
gaps and equal opcodes for the blocks (difflib's `get_opcodes` loop). -/
def getOpcodesAux : Nat → Nat → List (Nat × Nat × Nat) → List Opcode
  | _, _, [] => []
  | i, j, blk :: rest =>
    let gap : List Opcode :=
      if i < blk.1 ∧ j < blk.2.1 then [⟨Tag.replace, i, blk.1, j, blk.2.1⟩]
      else if i < blk.1 then [⟨Tag.delete, i, blk.1, j, blk.2.1⟩]
      else if j < blk.2.1 then [⟨Tag.insert, i, blk.1, j, blk.2.1⟩]
      else []
    let eqOp : List Opcode :=
      if blk.2.2 ≠ 0 then
        [⟨Tag.equal, blk.1, blk.1 + blk.2.2, blk.2.1, blk.2.1 + blk.2.2⟩]
      else []
    gap ++ eqOp ++ getOpcodesAux (blk.1 + blk.2.2) (blk.2.1 + blk.2.2) rest

/-- difflib's `get_opcodes` for the two sequences. -/
def getOpcodes (a b : List α) : List Opcode :=
  getOpcodesAux 0 0 (getMatchingBlocks a b)

/-- Total number of matched elements, `M` in difflib's `ratio`. -/
def matchTotal (a b : List α) : Nat :=
  ((getMatchingBlocks a b).map (fun blk => blk.2.2)).sum

/-- difflib's `ratio`: `2 * M / T` where `M` is the total size of the
matching blocks and `T` the combined length, and 1 when both are empty. -/
def ratioQ (a b : List α) : ℚ :=
  if a.length + b.length = 0 then 1
  else (2 * matchTotal a b : ℚ) / (a.length + b.length : ℚ)

end Difflib

/-!
Python string helpers used by the resolver: `str.splitlines()` (without
keepends) and the truthiness of `str.strip()`.
-/

namespace PyStr

/-- Line-break characters recognised by Python's `str.splitlines`. -/
def isLineBreak (c : Char) : Bool :=
  c.toNat = 10 ∨ c.toNat = 13 ∨ c.toNat = 11 ∨ c.toNat = 12 ∨
  c.toNat = 28 ∨ c.toNat = 29 ∨ c.toNat = 30 ∨ c.toNat = 133 ∨
  c.toNat = 8232 ∨ c.toNat = 8233

/-- Accumulating worker for `splitlines`; `cur` holds the current line in
reverse. -/
def splitlinesAux (cur : List Char) : List Char → List (List Char)
  | [] => if cur.isEmpty then [] else [cur.reverse]
  | '\r' :: '\n' :: rest => cur.reverse :: splitlinesAux [] rest
  | c :: rest =>
    if isLineBreak c then cur.reverse :: splitlinesAux [] rest
    else splitlinesAux (c :: cur) rest

/-- Python's `str.splitlines()` without keepends: `"a\n"` gives `["a"]`,
`""` gives `[]`, `"\n"` gives `[""]`. -/
def splitlines (s : List Char) : List (List Char) :=
  splitlinesAux [] s

/-- Characters stripped by Python's `str.strip()` (`str.isspace`). -/
def isPySpace (c : Char) : Bool :=
  let n := c.toNat
  n = 32 ∨ (9 ≤ n ∧ n ≤ 13) ∨ (28 ≤ n ∧ n ≤ 31) ∨ n = 133 ∨ n = 160 ∨
  n = 5760 ∨ (8192 ≤ n ∧ n ≤ 8202) ∨ n = 8232 ∨ n = 8233 ∨ n = 8239 ∨
  n = 8287 ∨ n = 12288

/-- Truthiness of `l.strip()`: the line has a non-whitespace character. -/
def stripNonempty (l : List Char) : Bool :=
  l.any (fun c => ¬ isPySpace c)

/-- Python string less-than: lexicographic comparison by code point. -/
def strLt : List Char → List Char → Bool
  | [], [] => false
  | [], _ :: _ => true
  | _ :: _, [] => false
  | a :: as, b :: bs =>
    if a.toNat < b.toNat then true
    else if a.toNat = b.toNat then strLt as bs
    else false

end PyStr

/-!
The ConflictResolver's merge analysis
(backend/app/collab/conflict_resolve.py).  Contents are lists of characters
(Python strings); a line is again a list of characters.
-/

namespace Collab

open Difflib PyStr

/-- A line of content. -/
abbrev Line := List Char

/-- Python slice `l[i1:i2]`. -/
def slice (l : List Line) (a b : Nat) : List Line :=
  (l.drop a).take (b - a)

/-- Entry appended to the analysis's `conflicts` list
(an `incompatible_replace` record). -/
structure IncompatibleReplace where
  lineRange : Nat × Nat
  content1 : List Line
  content2 : List Line
deriving DecidableEq

/-- Entry appended to the analysis's `mergeable_changes` list. -/
inductive MergeableChange where
  | compatibleReplace (original change1 change2 : List Line)
  | insertChange (content : List Line)
  | deleteChange (content : List Line)
deriving DecidableEq

/-- ConflictResolver._are_changes_compatible: the two replacement ranges
must have equal line counts, and every corresponding pair of lines that are
both non-blank (after strip) must have similarity ratio at least 0.5.  The
ratio test `ratio < 0.5` is written as the equivalent integer inequality
`4 * M < len1 + len2` (see `ratioQ_lt_half_iff`) so that the function
evaluates by reduction. -/
def are_changes_compatible (lines1 lines2 : List Line) : Bool :=
  lines1.length = lines2.length ∧
  (lines1.zip lines2).all (fun p =>
    if stripNonempty p.1 ∧ stripNonempty p.2 then
      ¬ (4 * matchTotal p.1 p.2 < p.1.length + p.2.length)
    else true)

/-- The opcode-classification loop of
ConflictResolver._analyze_changes_for_merging, returning the
`mergeable_changes` and `conflicts` lists in order. -/
def classifyOpcodes (lines1 lines2 : List Line) :
    List Opcode → List MergeableChange × List IncompatibleReplace
  | [] => ([], [])
  | op :: rest =>
    let r := classifyOpcodes lines1 lines2 rest
    match op.tag with
    | Tag.replace =>
      let s1 := slice lines1 op.i1 op.i2
      let s2 := slice lines2 op.j1 op.j2
      if are_changes_compatible s1 s2 then
        (MergeableChange.compatibleReplace s1 s1 s2 :: r.1, r.2)
      else
        (r.1, ⟨(op.i1, op.i2), s1, s2⟩ :: r.2)
    | Tag.insert => (MergeableChange.insertChange (slice lines2 op.j1 op.j2) :: r.1, r.2)
    | Tag.delete => (MergeableChange.deleteChange (slice lines1 op.i1 op.i2) :: r.1, r.2)
    | Tag.equal => r

/-- Result record of `_analyze_changes_for_merging`. -/
structure MergeAnalysis where
  canAutoMerge : Bool
  confidence : ℚ
  mergeableChanges : List MergeableChange
  conflicts : List IncompatibleReplace
deriving DecidableEq

/-- ConflictResolver._analyze_changes_for_merging: classify the diff
opcodes of the two contents, then
`can_auto_merge = (no conflicts) and confidence > 0.7` with
`confidence = mergeable / max(mergeable + conflicts, 1)`.  The comparison
`confidence > 0.7` is written as the equivalent integer inequality
`7 * max(mergeable + conflicts, 1) < 10 * mergeable`
(see `confidence_gt_710_iff`) so that the function evaluates by
reduction. -/
def analyze_changes_for_merging (content1 content2 : List Char) :
    MergeAnalysis :=
  let lines1 := splitlines content1
  let lines2 := splitlines content2
  let r := classifyOpcodes lines1 lines2 (getOpcodes lines1 lines2)
  { canAutoMerge :=
      decide (r.2.length = 0) &&
      decide (7 * max (r.1.length + r.2.length) 1 < 10 * r.1.length),
    confidence :=
      (r.1.length : ℚ) / (max (r.1.length + r.2.length) 1 : ℚ),
    mergeableChanges := r.1,
    conflicts := r.2 }

/-- The merged-line accumulation loop of
ConflictResolver._perform_automatic_merge. -/
def mergedLineList (lines1 lines2 : List Line) : List Opcode → List Line
  | [] => []
  | op :: rest =>
    (match op.tag with
     | Tag.equal => slice lines1 op.i1 op.i2
     | Tag.insert => slice lines2 op.j1 op.j2
     | Tag.delete => []
     | Tag.replace => slice lines1 op.i1 op.i2 ++ slice lines2 op.j1 op.j2)
    ++ mergedLineList lines1 lines2 rest

/-- Python's `"\n".join`. -/
def joinLines : List Line → List Char
  | [] => []
  | [l] => l
  | l :: rest => l ++ '\n' :: joinLines rest

/-- ConflictResolver._perform_automatic_merge: keep equal regions, take
inserts from the second content, drop deletes, and concatenate both sides
of replace regions. -/
def perform_automatic_merge (content1 content2 : List Char) : List Char :=
  let lines1 := splitlines content1
  let lines2 := splitlines content2
  joinLines (mergedLineList lines1 lines2 (getOpcodes lines1 lines2))

/-- ConflictResolver._merge_conflicting_changes at the content level:
analyze, then auto-merge or report the analysis for manual resolution. -/
def merge_conflicting_changes (content1 content2 : List Char) :
    Option (List Char) × MergeAnalysis :=
  let ana := analyze_changes_for_merging content1 content2
  (if ana.canAutoMerge then some (perform_automatic_merge content1 content2)
   else none, ana)

end Collab

/-!
Data model of the session manager
(backend/app/collab/session_manager.py).  Python dictionaries are embedded
as insertion-ordered association lists, datetimes as natural numbers, and
arbitrary JSON-ish values as `PyVal`.  External I/O (websocket broadcasts,
persistence) is recorded as a list of `Effect`s; operations of the manager
that are called but not defined under src (they are named in the doc
comments below) are modelled from the spec.
-/

namespace Collab

/-- Timestamps (`datetime` values), totally ordered. -/
abbrev Time := Nat

/-- Embedded Python values stored in session dictionaries. -/
inductive PyVal where
  | pstr (s : String)
  | pbool (b : Bool)
  | pnat (n : Nat)
  | plist (xs : List PyVal)
  | pdict (entries : List (String × PyVal))

/-- Association-list lookup with Python `dict` key semantics. -/
def dlookup {V : Type} (d : List (String × V)) (k : String) : Option V :=
  (d.find? (fun p => p.1 = k)).map (fun p => p.2)

/-- Python `d[k] = v`: overwrite in place if the key exists, else append. -/
def dset {V : Type} : List (String × V) → String → V → List (String × V)
  | [], k, v => [(k, v)]
  | p :: rest, k, v =>
    if p.1 = k then (k, v) :: rest else p :: dset rest k v

/-- Python `del d[k]` (no error if absent, which the manager never relies
on). -/
def ddel {V : Type} (d : List (String × V)) (k : String) :
    List (String × V) :=
  d.filter (fun p => p.1 ≠ k)

/-- Collaboration roles (session_manager.CollaborationRole). -/
inductive CollaborationRole where
  | owner
  | collaborator
  | viewer
  | reviewer
deriving DecidableEq

/-- Activity types (session_manager.ActivityType). -/
inductive ActivityType where
  | joinSession
  | leaveSession
  | addResearch
  | editContent
  | addComment
  | updatePlan
  | exportData
  | validateClaim
deriving DecidableEq

/-- Membership record (session_manager.CollaborationUser). -/
structure CollaborationUser where
  userId : String
  username : String
  role : CollaborationRole
  avatarUrl : String := ""
  isOnline : Bool := true
  lastActivity : Time
  currentLocation : String := ""

/-- Activity-log record (session_manager.CollaborationActivity). -/
structure CollaborationActivity where
  activityId : String
  userId : String
  username : String
  activityType : ActivityType
  content : PyVal
  timestamp : Time
  sessionId : String

/-- The two content dictionaries of a conflict, restricted to the keys the
resolver reads (`content` and `timestamp`; Python timestamps are strings
compared lexicographically). -/
structure EditContent where
  content : Option (List Char) := none
  timestamp : Option (List Char) := none
deriving DecidableEq

/-- Conflict record (session_manager.CollaborationConflict, also used by
the resolver). -/
structure CollaborationConflict where
  conflictId : String
  sessionId : String
  sectionId : String
  user1Id : String
  user2Id : String
  conflictType : String
  content1 : EditContent
  content2 : EditContent
  timestamp : Time
  resolved : Bool := false
deriving DecidableEq

/-- Static fields of the persisted session row used by analytics. -/
structure SessionRecord where
  title : String
  description : String
  ownerId : String
  createdAt : Time

/-- One entry of `active_sessions`. -/
structure SessionData where
  session : SessionRecord
  users : List (String × CollaborationUser)
  currentState : List (String × PyVal)
  pendingChanges : List (String × PyVal)
  lastSync : Time

/-- One section lock: `section_id -> \x7buser_id, acquired_at\x7d`. -/
structure LockInfo where
  userId : String
  acquiredAt : Time
deriving DecidableEq

/-- The mutable fields of a CollaborationSessionManager instance. -/
structure ManagerState where
  activeSessions : List (String × SessionData)
  userSessions : List (String × List String)
  sessionLocks : List (String × List (String × LockInfo))
  activeConflicts : List (String × CollaborationConflict)
  recentActivities : List (String × List CollaborationActivity)

/-- Inputs the manager draws from outside one call: the clock, generated
ids, the conflict-detection verdict, and whether each external I/O step
raises (`none` means it succeeds, `some e` models an exception with message
`e`). -/
structure Env where
  now : Time
  activityId : String := ""
  editId : String := ""
  commentId : String := ""
  conflictCheck : Option CollaborationConflict := none
  broadcastEditErr : Option String := none
  broadcastCommentErr : Option String := none
  persistErr : Option String := none

/-- External I/O performed by a call, in order. -/
inductive Effect where
  | disconnect (group userId : String)
  | broadcastActivity (sessionId userId : String) (t : ActivityType)
  | broadcastEdit (sessionId userId sectionId : String)
      (editData : List (String × PyVal))
  | broadcastComment (sessionId commentId : String)
  | broadcastSyncComplete (sessionId : String)
  | persist (sessionId : String)

/-- The append-and-cap step of `_log_activity`: append, then keep only the
last 100 entries (`self.recent_activities[session_id][-100:]`). -/
def push_activity (log : List CollaborationActivity)
    (a : CollaborationActivity) : List CollaborationActivity :=
  let l := log ++ [a]
  if 100 < l.length then l.drop (l.length - 100) else l

/-- CollaborationSessionManager._log_activity. -/
def log_activity (env : Env) (st : ManagerState)
    (sessionId userId username : String) (t : ActivityType)
    (content : PyVal) : ManagerState :=
  let a : CollaborationActivity :=
    ⟨env.activityId, userId, username, t, content, env.now, sessionId⟩
  { st with recentActivities :=
      (dset st.recentActivities sessionId
        (push_activity ((dlookup st.recentActivities sessionId).getD []) a)) }

/-- CollaborationSessionManager.leave_session.  The lock release
(`_release_user_locks`) is Modelled from the spec: release_all_for_user
removes every lock in the session held by the user. -/
def leave_session (env : Env) (st : ManagerState)
    (sessionId userId : String) : ManagerState × List Effect × Bool :=
  match dlookup st.activeSessions sessionId with
  | none => (st, [], false)
  | some sd =>
    match dlookup sd.users userId with
    | none => (st, [], false)
    | some user =>
      let st1 := { st with sessionLocks :=
        (dset st.sessionLocks sessionId
          (((dlookup st.sessionLocks sessionId).getD []).filter
            (fun p => p.2.userId ≠ userId))) }
      let st2 := { st1 with activeSessions :=
        (dset st1.activeSessions sessionId { sd with users := ddel sd.users userId }) }
      let st3 :=
        match dlookup st2.userSessions userId with
        | none => st2
        | some ss =>
          let ss2 := ss.filter (fun x => x ≠ sessionId)
          { st2 with userSessions :=
              (if ss2.isEmpty then ddel st2.userSessions userId
              else dset st2.userSessions userId ss2) }
      let st4 := log_activity env st3 sessionId userId user.username
        ActivityType.leaveSession (PyVal.pdict [])
      (st4,
        [Effect.disconnect ("collab_" ++ sessionId) userId,
         Effect.broadcastActivity sessionId userId ActivityType.leaveSession],
        true)

/-- Role gate for edits.  Modelled from the spec: role-based operation
gating, viewers cannot edit (`_validate_edit_permission` is absent from
src). -/
def roleCanEdit : CollaborationRole → Bool
  | CollaborationRole.viewer => false
  | _ => true

/-- Merge an edit into the stored section value.  Modelled from the spec:
the apply step merges `edit_data` into `current_state[section_id]`
(`_apply_edit` is absent from src); dictionary entries of the edit
overwrite entries of the stored dictionary. -/
def merge_edit (old : Option PyVal) (editData : List (String × PyVal)) :
    PyVal :=
  match old with
  | some (PyVal.pdict d) =>
    PyVal.pdict (editData.foldl (fun acc p => dset acc p.1 p.2) d)
  | _ => PyVal.pdict editData

/-- Result dictionary of handle_real_time_edit. -/
structure EditResult where
  success : Bool
  error : Option String := none
  conflict : Bool := false
  editId : Option String := none
deriving DecidableEq

/-- CollaborationSessionManager.handle_real_time_edit.  Permission check,
lock acquisition (Modelled from the spec: `acquire` succeeds if the section
is unlocked or already held by the caller, re-entrant) and the apply step
use the spec models above; `_check_edit_conflict`'s verdict comes from the
environment; `_broadcast_edit` may raise, in which case the handler's
`except` reports failure after the edit was applied. -/
def handle_real_time_edit (env : Env) (st : ManagerState)
    (sessionId userId sectionId : String)
    (editData : List (String × PyVal)) :
    ManagerState × List Effect × EditResult :=
  match dlookup st.activeSessions sessionId with
  | none => (st, [], { success := false, error := some "Insufficient permissions" })
  | some sd =>
    match dlookup sd.users userId with
    | none => (st, [], { success := false, error := some "Insufficient permissions" })
    | some u =>
      if roleCanEdit u.role = false then
        (st, [], { success := false, error := some "Insufficient permissions" })
      else
        match env.conflictCheck with
        | some _ => (st, [], { success := false, conflict := true })
        | none =>
          let locks := (dlookup st.sessionLocks sessionId).getD []
          let proceed : ManagerState → ManagerState × List Effect × EditResult :=
            fun stL =>
              let stA := { stL with activeSessions :=
                (dset stL.activeSessions sessionId
                  { sd with currentState :=
                      (dset sd.currentState sectionId
                        (merge_edit (dlookup sd.currentState sectionId) editData)) }) }
              match env.broadcastEditErr with
              | some e => (stA, [], { success := false, error := some e })
              | none =>
                let stB := log_activity env stA sessionId userId u.username
                  ActivityType.editContent
                  (PyVal.pdict
                    [("section_id", PyVal.pstr sectionId),
                     ("edit_type",
                       (dlookup editData "type").getD (PyVal.pstr "unknown"))])
                (stB,
                  [Effect.broadcastEdit sessionId userId sectionId editData],
                  { success := true, editId := some env.editId })
          match dlookup locks sectionId with
          | some li =>
            if li.userId = userId then proceed st
            else (st, [],
              { success := false, error := some "Section is locked by another user" })
          | none =>
            proceed { st with sessionLocks :=
              (dset st.sessionLocks sessionId
                (dset locks sectionId ⟨userId, env.now⟩)) }

/-- The comment dictionary built by add_collaborative_comment. -/
def comment_value (env : Env) (userId username sectionId : String)
    (commentData : List (String × PyVal)) : PyVal :=
  PyVal.pdict
    [("comment_id", PyVal.pstr env.commentId),
     ("user_id", PyVal.pstr userId),
     ("username", PyVal.pstr username),
     ("content", (dlookup commentData "content").getD (PyVal.pstr "")),
     ("section_id", PyVal.pstr sectionId),
     ("timestamp", PyVal.pnat env.now),
     ("replies", PyVal.plist []),
     ("resolved", PyVal.pbool false),
     ("tags", (dlookup commentData "tags").getD (PyVal.plist []))]

/-- Result dictionary of add_collaborative_comment. -/
structure CommentResult where
  success : Bool
  error : Option String := none
  commentId : Option String := none
deriving DecidableEq

/-- CollaborationSessionManager.add_collaborative_comment.  A missing
session or user raises KeyError inside the `try`, reported as a failure
with no mutation; the comment is stored into `current_state["comments"]`
before the broadcast (`_broadcast_comment`, absent from src, Modelled from
the spec as external transport that may raise) and before logging, so a
later exception surfaces as failure while the comment stays stored. -/
def add_collaborative_comment (env : Env) (st : ManagerState)
    (sessionId userId sectionId : String)
    (commentData : List (String × PyVal)) :
    ManagerState × List Effect × CommentResult :=
  match dlookup st.activeSessions sessionId with
  | none => (st, [], { success := false, error := some "KeyError" })
  | some sd =>
    match dlookup sd.users userId with
    | none => (st, [], { success := false, error := some "KeyError" })
    | some u =>
      let cv := comment_value env userId u.username sectionId commentData
      let ins : List (String × PyVal) →
          ManagerState × List Effect × CommentResult := fun cs =>
        let stA := { st with activeSessions :=
          (dset st.activeSessions sessionId
            { sd with currentState :=
                (dset sd.currentState "comments"
                  (PyVal.pdict (dset cs env.commentId cv))) }) }
        match env.broadcastCommentErr with
        | some e => (stA, [], { success := false, error := some e })
        | none =>
          let stB := log_activity env stA sessionId userId u.username
            ActivityType.addComment
            (PyVal.pdict
              [("section_id", PyVal.pstr sectionId),
               ("comment_id", PyVal.pstr env.commentId)])
          (stB, [Effect.broadcastComment sessionId env.commentId],
            { success := true, commentId := some env.commentId })
      match dlookup sd.currentState "comments" with
      | some (PyVal.pdict cs) => ins cs
      | none => ins []
      | some _ => (st, [], { success := false, error := some "TypeError" })

/-- Drain one pending change into the state.  Modelled from the spec:
`_apply_pending_change` (absent from src) applies a staged mutation to
`current_state`; a dictionary change overwrites the corresponding keys. -/
def apply_pending_change (cs : List (String × PyVal)) (change : PyVal) :
    List (String × PyVal) :=
  match change with
  | PyVal.pdict entries => entries.foldl (fun acc p => dset acc p.1 p.2) cs
  | _ => cs

/-- Result dictionary of sync_research_state.  The checksum
(`_calculate_state_checksum`, absent from src) is Modelled from the spec as
an opaque digest of the persisted state, represented here by the state
value itself. -/
structure SyncResult where
  success : Bool
  error : Option String := none
  syncTimestamp : Option Time := none
  stateChecksum : Option (List (String × PyVal)) := none

/-- CollaborationSessionManager.sync_research_state.  Pending changes are
drained into `current_state` and cleared, then persistence
(`_persist_session_state`, absent from src, Modelled from the spec as
external storage that may raise) is attempted; only after it succeeds is
`last_sync` advanced and the completion broadcast. -/
def sync_research_state (env : Env) (st : ManagerState)
    (sessionId : String) : ManagerState × List Effect × SyncResult :=
  match dlookup st.activeSessions sessionId with
  | none => (st, [], { success := false, error := some "Session not found" })
  | some sd =>
    let cur2 := sd.pendingChanges.foldl
      (fun cs p => apply_pending_change cs p.2) sd.currentState
    let st1 := { st with activeSessions :=
      (dset st.activeSessions sessionId
        { sd with currentState := cur2, pendingChanges := [] }) }
    match env.persistErr with
    | some e => (st1, [], { success := false, error := some e })
    | none =>
      let st2 := { st1 with activeSessions :=
        (dset st1.activeSessions sessionId
          { sd with
            currentState := cur2
            pendingChanges := []
            lastSync := env.now }) }
      (st2, [Effect.persist sessionId, Effect.broadcastSyncComplete sessionId],
        { success := true, syncTimestamp := some env.now,
          stateChecksum := some cur2 })

/-- The analytics aggregate returned by get_session_analytics. -/
structure Analytics where
  title : String
  createdAt : Time
  lastSync : Time
  totalUsers : Nat
  onlineUsers : Nat
  totalActivities : Nat
  editCount : Nat
  commentCount : Nat
  activeUsers : List CollaborationUser
  recentActivities : List CollaborationActivity
  conflicts : List CollaborationConflict

/-- CollaborationSessionManager.get_session_analytics: a read-only
aggregation of the in-memory state (`none` stands for the
"Session not found" error dictionary).  The conflict list keeps every
conflict whose `session_id` matches, with no filter on `resolved`. -/
def get_session_analytics (st : ManagerState) (sessionId : String) :
    ManagerState × Option Analytics :=
  match dlookup st.activeSessions sessionId with
  | none => (st, none)
  | some sd =>
    let acts := (dlookup st.recentActivities sessionId).getD []
    (st, some
      { title := sd.session.title,
        createdAt := sd.session.createdAt,
        lastSync := sd.lastSync,
        totalUsers := sd.users.length,
        onlineUsers := (sd.users.filter (fun p => p.2.isOnline)).length,
        totalActivities := acts.length,
        editCount :=
          (acts.filter (fun a => a.activityType = ActivityType.editContent)).length,
        commentCount :=
          (acts.filter (fun a => a.activityType = ActivityType.addComment)).length,
        activeUsers := sd.users.map (fun p => p.2),
        recentActivities := acts.drop (acts.length - 20),
        conflicts :=
          (st.activeConflicts.map (fun p => p.2)).filter
            (fun c => c.sessionId = sessionId) })

end Collab

/-!
ConflictResolver.resolve_conflict
(backend/app/collab/conflict_resolve.py, strategy dispatch).
-/

namespace Collab

open PyStr

/-- Conflict types (conflict_resolve.ConflictType). -/
inductive ConflictType where
  | concurrentEdit
  | overwriteConflict
  | sectionLockConflict
  | permissionConflict
deriving DecidableEq

/-- Resolution strategies (conflict_resolve.ResolutionStrategy). -/
inductive ResolutionStrategy where
  | mergeChanges
  | userChoice
  | timestampPriority
  | rolePriority
deriving DecidableEq

/-- Python `ConflictType(s)`: `none` models the ValueError raised on an
unknown value. -/
def parseConflictType (s : String) : Option ConflictType :=
  if s = "concurrent_edit" then some ConflictType.concurrentEdit
  else if s = "overwrite_conflict" then some ConflictType.overwriteConflict
  else if s = "section_lock_conflict" then some ConflictType.sectionLockConflict
  else if s = "permission_conflict" then some ConflictType.permissionConflict
  else none

/-- The resolver's fixed default-strategy table. -/
def resolution_strategies : ConflictType → ResolutionStrategy
  | ConflictType.concurrentEdit => ResolutionStrategy.mergeChanges
  | ConflictType.overwriteConflict => ResolutionStrategy.userChoice
  | ConflictType.sectionLockConflict => ResolutionStrategy.timestampPriority
  | ConflictType.permissionConflict => ResolutionStrategy.rolePriority

/-- Result of resolve_conflict, restricted to the fields the strategies
set.  The advisory suggestion strings of the user_choice branch
(`_generate_merge_suggestions`, whose helper
`_create_complementary_merge_preview` is absent from src) are not
modelled. -/
structure ResolutionResult where
  conflictId : String
  strategy : ResolutionStrategy
  success : Bool
  resolvedContent : Option EditContent := none
  winningUser : Option String := none
  resolutionReason : Option String := none
  mergedContent : Option (List Char) := none
  mergeConflicts : List IncompatibleReplace := []
  requiresUserInput : Bool := false
deriving DecidableEq

/-- The timestamp_priority comparison: the content whose
`content.get("timestamp", "")` string is lexicographically greater wins;
on a non-greater comparison (including ties) the second content wins. -/
def timestamp_winner (c : CollaborationConflict) : EditContent × String :=
  let ts1 := c.content1.timestamp.getD []
  let ts2 := c.content2.timestamp.getD []
  if strLt ts2 ts1 then (c.content1, c.user1Id) else (c.content2, c.user2Id)

/-- ConflictResolver.resolve_conflict.  `rolePrio` supplies the role
ranking for the role_priority branch (`_resolve_by_role_priority` is absent
from src; Modelled from the spec: the higher role wins, ties fall back to
timestamp priority).  The error case models the ValueError from
`ConflictType(...)` on an unknown conflict type when no preference is
given. -/
def resolve_conflict (rolePrio : String → Nat)
    (c : CollaborationConflict) (pref : Option ResolutionStrategy) :
    Except String ResolutionResult :=
  let strat : Except String ResolutionStrategy :=
    match pref with
    | some s => Except.ok s
    | none =>
      match parseConflictType c.conflictType with
      | some ct => Except.ok (resolution_strategies ct)
      | none => Except.error "ValueError"
  match strat with
  | Except.error e => Except.error e
  | Except.ok s =>
    match s with
    | ResolutionStrategy.mergeChanges =>
      let m := merge_conflicting_changes
        (c.content1.content.getD []) (c.content2.content.getD [])
      Except.ok
        { conflictId := c.conflictId, strategy := s, success := true,
          mergedContent := m.1, mergeConflicts := m.2.conflicts }
    | ResolutionStrategy.userChoice =>
      Except.ok
        { conflictId := c.conflictId, strategy := s, success := false,
          requiresUserInput := true }
    | ResolutionStrategy.timestampPriority =>
      let w := timestamp_winner c
      Except.ok
        { conflictId := c.conflictId, strategy := s, success := true,
          resolvedContent := some w.1, winningUser := some w.2,
          resolutionReason := some "timestamp_priority" }
    | ResolutionStrategy.rolePriority =>
      if rolePrio c.user2Id < rolePrio c.user1Id then
        Except.ok
          { conflictId := c.conflictId, strategy := s, success := true,
            resolvedContent := some c.content1,
            winningUser := some c.user1Id,
            resolutionReason := some "role_priority" }
      else if rolePrio c.user1Id < rolePrio c.user2Id then
        Except.ok
          { conflictId := c.conflictId, strategy := s, success := true,
            resolvedContent := some c.content2,
            winningUser := some c.user2Id,
            resolutionReason := some "role_priority" }
      else
        let w := timestamp_winner c
        Except.ok
          { conflictId := c.conflictId, strategy := s, success := true,
            resolvedContent := some w.1, winningUser := some w.2,
            resolutionReason := some "role_priority" }

end Collab


namespace Collab

open Difflib PyStr

/-- A sample conflict for the timestamp-priority witnesses. -/
def c5Conflict : CollaborationConflict :=
  { conflictId := "k5", sessionId := "s1", sectionId := "intro",
    user1Id := "alice", user2Id := "bob",
    conflictType := "section_lock_conflict",
    content1 := { content := some "old text".toList,
                  timestamp := some "2025-01-01T10:00:00".toList },
    content2 := { content := some "new text".toList,
                  timestamp := some "2025-01-02T10:00:00".toList },
    timestamp := 7, resolved := false }

/-- A sample conflict with both timestamps omitted. -/
def c10Conflict : CollaborationConflict :=
  { conflictId := "k10", sessionId := "s1", sectionId := "intro",
    user1Id := "alice", user2Id := "bob",
    conflictType := "section_lock_conflict",
    content1 := { content := some "one".toList },
    content2 := { content := some "two".toList },
    timestamp := 7, resolved := false }

/-- A sample activity record. -/
def sampleActivity : CollaborationActivity :=
  { activityId := "a1", userId := "alice", username := "Alice",
    activityType := ActivityType.joinSession, content := PyVal.pdict [],
    timestamp := 2, sessionId := "s1" }

/-- A sample membership record. -/
def sampleUser : CollaborationUser :=
  { userId := "alice", username := "Alice",
    role := CollaborationRole.owner, isOnline := true, lastActivity := 1,
    currentLocation := "dashboard" }

/-- A sample resident session. -/
def sampleSessionData : SessionData :=
  { session := { title := "Research", description := "d",
                 ownerId := "alice", createdAt := 0 },
    users := [("alice", sampleUser)],
    currentState := [("intro", PyVal.pdict [("content", PyVal.pstr "Hello")])],
    pendingChanges := [],
    lastSync := 3 }

/-- A sample manager state with one resident session. -/
def sampleState : ManagerState :=
  { activeSessions := [("s1", sampleSessionData)],
    userSessions := [("alice", ["s1"])],
    sessionLocks := [("s1", [])],
    activeConflicts := [],
    recentActivities := [("s1", [sampleActivity])] }

/-- An environment in which persistence raises. -/
def envC7 : Env := { now := 9, persistErr := some "db down" }

/-- An environment in which the comment broadcast raises. -/
def envC9 : Env :=
  { now := 9, commentId := "comment-1",
    broadcastCommentErr := some "socket closed" }

/-- Sample comment payload. -/
def commentDataW : List (String × PyVal) :=
  [("content", PyVal.pstr "Nice result"), ("tags", PyVal.plist [])]

/-- A conflict already marked resolved, belonging to session s1. -/
def c8Conflict : CollaborationConflict :=
  { conflictId := "k1", sessionId := "s1", sectionId := "intro",
    user1Id := "alice", user2Id := "bob",
    conflictType := "concurrent_edit",
    content1 := { content := some "a".toList },
    content2 := { content := some "b".toList },
    timestamp := 5, resolved := true }

/-- The sample state with one resolved conflict registered. -/
def c8State : ManagerState :=
  { sampleState with activeConflicts := [("k1", c8Conflict)] }

/-- Environment for the leave witness. -/
def envW : Env := { now := 9, activityId := "act-1" }

/-- Environment for the edit witness. -/
def envC1 : Env := { now := 9, activityId := "act-2", editId := "edit-1" }

/-- Sample edit payload. -/
def editDataW : List (String × PyVal) :=
  [("content", PyVal.pstr "Hello world"), ("type", PyVal.pstr "replace")]

/-- An opcode that the analysis loop appends to `mergeable_changes`:
inserts, deletes, and compatible replaces. -/
def opMergeable (lines1 lines2 : List Line) (op : Opcode) : Bool :=
  match op.tag with
  | Tag.replace =>
    are_changes_compatible (slice lines1 op.i1 op.i2)
      (slice lines2 op.j1 op.j2)
  | Tag.insert => true
  | Tag.delete => true
  | Tag.equal => false

/-- An opcode that the analysis loop appends to `conflicts`: incompatible
replaces. -/
def opConflicting (lines1 lines2 : List Line) (op : Opcode) : Bool :=
  match op.tag with
  | Tag.replace =>
    ! are_changes_compatible (slice lines1 op.i1 op.i2)
      (slice lines2 op.j1 op.j2)
  | _ => false

/-- Compatibility as the specification words it: equal line counts and
every corresponding pair of lines with similarity at least 0.5 — without
the source's blank-line exemption. -/
def spec_changes_compatible (lines1 lines2 : List Line) : Bool :=
  lines1.length = lines2.length ∧
  (lines1.zip lines2).all (fun p => ¬ (ratioQ p.1 p.2 < (1 : ℚ) / 2))

end Collab

/-!
Helper lemmas about the embedded dictionary operations and Python string
comparison.
-/

namespace Collab

theorem dlookup_dset {V : Type} (d : List (String × V)) (k : String) (v : V) :
    dlookup (dset d k v) k = some v := by
  induction d with
  | nil => simp [dset, dlookup]
  | cons p rest ih =>
    by_cases h : p.1 = k
    · simp [dset, h, dlookup]
    · simp [dset, h, dlookup, List.find?]
      simpa [dlookup] using ih

theorem dlookup_dset_ne {V : Type} (d : List (String × V)) (k k2 : String)
    (v : V) (h : k2 ≠ k) : dlookup (dset d k v) k2 = dlookup d k2 := by
  induction d with
  | nil => simp [dset, dlookup, List.find?, Ne.symm h]
  | cons p rest ih =>
    by_cases hp : p.1 = k
    · subst hp
      simp [dset, dlookup, List.find?, Ne.symm h, h]
    · simp only [dset, if_neg hp]
      by_cases hpk : p.1 = k2
      · simp [dlookup, List.find?, hpk]
      · simp only [dlookup, List.find?] at ih ⊢
        simp only [hpk]
        simpa using ih

theorem dlookup_ddel_self {V : Type} (d : List (String × V)) (k : String) :
    dlookup (ddel d k) k = none := by
  induction d with
  | nil => rfl
  | cons p rest ih =>
    by_cases h : p.1 = k
    · rw [show ddel (p :: rest) k = ddel rest k by simp [ddel, h]]
      exact ih
    · rw [show ddel (p :: rest) k = p :: ddel rest k by simp [ddel, h]]
      rw [show dlookup (p :: ddel rest k) k = dlookup (ddel rest k) k by
        simp [dlookup, List.find?, h]]
      exact ih

end Collab

namespace PyStr

theorem strLt_self (l : List Char) : strLt l l = false := by
  induction l with
  | nil => rfl
  | cons a as ih => simp [strLt, ih]

theorem strLt_asymm {x y : List Char} (h : strLt x y = true) :
    strLt y x = false := by
  induction x generalizing y with
  | nil =>
    cases y with
    | nil => simp [strLt] at h
    | cons b bs => rfl
  | cons a as ih =>
    cases y with
    | nil => simp [strLt] at h
    | cons b bs =>
      simp only [strLt] at h ⊢
      by_cases hab : a.toNat < b.toNat
      · have h1 : ¬ b.toNat < a.toNat := by omega
        have h2 : ¬ b.toNat = a.toNat := by omega
        simp [h1, h2]
      · simp only [if_neg hab] at h
        by_cases heq : a.toNat = b.toNat
        · simp only [if_pos heq] at h
          have h1 : ¬ b.toNat < a.toNat := by omega
          have h2 : b.toNat = a.toNat := heq.symm
          simp [h1, h2, ih h]
        · simp [heq] at h

end PyStr

namespace Collab

theorem push_activity_eq (log : List CollaborationActivity)
    (a : CollaborationActivity) :
    push_activity log a = (log ++ [a]).drop ((log ++ [a]).length - 100) := by
  simp only [push_activity, List.length_append, List.length_singleton]
  by_cases hl : 100 < log.length + 1
  · rw [if_pos hl]
  · rw [if_neg hl]
    have h0 : log.length + 1 - 100 = 0 := by omega
    rw [h0, List.drop_zero]

theorem foldl_push_activity (as log : List CollaborationActivity)
    (h : log.length ≤ 100) :
    List.foldl push_activity log as =
      (log ++ as).drop ((log ++ as).length - 100) := by
  induction as generalizing log with
  | nil =>
    have h0 : log.length - 100 = 0 := by omega
    simp [h0]
  | cons a as ih =>
    have hpush := push_activity_eq log a
    have hlen : (push_activity log a).length ≤ 100 := by
      rw [hpush]
      simp only [List.length_drop, List.length_append, List.length_singleton]
      omega
    rw [List.foldl_cons, ih (push_activity log a) hlen, hpush]
    have hk : (log ++ [a]).length - 100 ≤ (log ++ [a]).length := by omega
    rw [← List.drop_append_of_le_length hk, List.drop_drop]
    have e2 : log ++ [a] ++ as = log ++ a :: as := by simp
    rw [e2]
    have e3 : (log ++ [a]).length - 100 +
        (((log ++ a :: as).drop ((log ++ [a]).length - 100)).length - 100) =
        (log ++ a :: as).length - 100 := by
      have l1 : (log ++ [a]).length = log.length + 1 := by simp
      have l2 : (log ++ a :: as).length = log.length + (as.length + 1) := by
        simp
      simp only [List.length_drop, l1, l2]
      omega
    rw [e3]

/-- The per-session activity log after logging the sequence `as` of
activities into an initially empty log: always the most recent at most 100
entries, in order. -/
theorem push_activity_log_shape (as : List CollaborationActivity) :
    List.foldl push_activity [] as = as.drop (as.length - 100) := by
  simpa using foldl_push_activity as [] (by simp)

theorem push_activity_getLast (log : List CollaborationActivity)
    (a : CollaborationActivity) :
    (push_activity log a).getLast? = some a := by
  simp only [push_activity, List.length_append, List.length_singleton]
  by_cases hl : 100 < log.length + 1
  · rw [if_pos hl]
    have hk : log.length + 1 - 100 ≤ log.length := by omega
    rw [List.drop_append_of_le_length hk, List.getLast?_concat]
  · rw [if_neg hl, List.getLast?_concat]

end Collab

namespace Collab

open PyStr

/-- Claim C5: for every conflict whose content1 carries timestamp T1 and
whose content2 carries timestamp T2 with T1 < T2 (Python string
comparison), resolve_conflict with the timestamp_priority strategy returns
success with content2 as the resolved content and user2_id as the winning
user.  The embedded resolver is a pure function of the conflict, so the
result is deterministic and independent of call order. -/
theorem claim_C5_timestamp_priority (rolePrio : String → Nat)
    (c : CollaborationConflict) (t1 t2 : List Char)
    (h1 : c.content1.timestamp = some t1)
    (h2 : c.content2.timestamp = some t2)
    (hlt : strLt t1 t2 = true) :
    resolve_conflict rolePrio c (some ResolutionStrategy.timestampPriority) =
      Except.ok
        { conflictId := c.conflictId,
          strategy := ResolutionStrategy.timestampPriority,
          success := true,
          resolvedContent := some c.content2,
          winningUser := some c.user2Id,
          resolutionReason := some "timestamp_priority" } := by
  simp only [resolve_conflict, timestamp_winner, h1, h2, Option.getD_some]
  rw [strLt_asymm hlt]
  simp

/-- Claim C10: for every conflict whose two contents carry equal timestamp
values (including both omitting the field, which defaults to the empty
string), resolve_conflict with the timestamp_priority strategy selects
content2 and user2_id as the winner. -/
theorem claim_C10_timestamp_tie (rolePrio : String → Nat)
    (c : CollaborationConflict)
    (heq : c.content1.timestamp.getD [] = c.content2.timestamp.getD []) :
    resolve_conflict rolePrio c (some ResolutionStrategy.timestampPriority) =
      Except.ok
        { conflictId := c.conflictId,
          strategy := ResolutionStrategy.timestampPriority,
          success := true,
          resolvedContent := some c.content2,
          winningUser := some c.user2Id,
          resolutionReason := some "timestamp_priority" } := by
  simp only [resolve_conflict, timestamp_winner, heq]
  rw [strLt_self]
  simp

/-- Claim C6: over every sequence of logged activities for one session,
the stored log (a fold of the append-and-cap step over the sequence) never
holds more than 100 entries, and once more than 100 have been logged it is
exactly the suffix of the 100 most recent ones in chronological order. -/
theorem claim_C6_activity_log_bound (as : List CollaborationActivity) :
    (List.foldl push_activity [] as).length ≤ 100 ∧
    (100 < as.length →
      List.foldl push_activity [] as = as.drop (as.length - 100)) := by
  have h := push_activity_log_shape as
  constructor
  · rw [h]
    simp only [List.length_drop]
    omega
  · intro _
    exact h

theorem claim_C5_witness :
    strLt "2025-01-01T10:00:00".toList "2025-01-02T10:00:00".toList = true ∧
    resolve_conflict (fun _ => 0) c5Conflict
        (some ResolutionStrategy.timestampPriority) =
      Except.ok
        { conflictId := "k5",
          strategy := ResolutionStrategy.timestampPriority,
          success := true,
          resolvedContent := some c5Conflict.content2,
          winningUser := some "bob",
          resolutionReason := some "timestamp_priority" } :=
  ⟨by decide,
   claim_C5_timestamp_priority (fun _ => 0) c5Conflict
     "2025-01-01T10:00:00".toList "2025-01-02T10:00:00".toList rfl rfl
     (by decide)⟩

theorem claim_C10_witness :
    c10Conflict.content1.timestamp.getD [] =
      c10Conflict.content2.timestamp.getD [] ∧
    resolve_conflict (fun _ => 0) c10Conflict
        (some ResolutionStrategy.timestampPriority) =
      Except.ok
        { conflictId := "k10",
          strategy := ResolutionStrategy.timestampPriority,
          success := true,
          resolvedContent := some c10Conflict.content2,
          winningUser := some "bob",
          resolutionReason := some "timestamp_priority" } :=
  ⟨rfl, claim_C10_timestamp_tie (fun _ => 0) c10Conflict rfl⟩

theorem claim_C6_witness :
    100 < (List.replicate 101 sampleActivity).length ∧
    List.foldl push_activity [] (List.replicate 101 sampleActivity) =
      (List.replicate 101 sampleActivity).drop
        ((List.replicate 101 sampleActivity).length - 100) :=
  ⟨by simp,
   (claim_C6_activity_log_bound (List.replicate 101 sampleActivity)).2
     (by simp)⟩

end Collab

namespace Collab

/-- Claim C7: for every resident session, if persisting during
sync_research_state raises, the call returns a structured failure with the
error, performs no external effect, `last_sync` keeps its previous value,
and the in-memory state is retained: `current_state` holds exactly the
previous state with the drained pending changes applied (unchanged whenever
there were no pending changes), so nothing is lost for a retry. -/
theorem claim_C7_sync_persist_failure (env : Env) (st : ManagerState)
    (sessionId : String) (sd : SessionData) (e : String)
    (hs : dlookup st.activeSessions sessionId = some sd)
    (hp : env.persistErr = some e) :
    ((sync_research_state env st sessionId).2.2.success = false ∧
      (sync_research_state env st sessionId).2.2.error = some e) ∧
    (sync_research_state env st sessionId).2.1 = [] ∧
    (∃ sd1, dlookup (sync_research_state env st sessionId).1.activeSessions
        sessionId = some sd1 ∧
      sd1.lastSync = sd.lastSync ∧
      sd1.currentState = sd.pendingChanges.foldl
        (fun cs p => apply_pending_change cs p.2) sd.currentState ∧
      sd1.pendingChanges = [] ∧
      (sd.pendingChanges = [] → sd1.currentState = sd.currentState)) := by
  simp only [sync_research_state, hs, hp]
  refine ⟨?_, ?_, ?_⟩ <;> simp [dlookup_dset]
  intro h0
  rw [h0]
  simp

/-- Claim C9: for every call to add_collaborative_comment on a resident
session with a registered user whose comments slot is a dictionary (or
absent), if the broadcast step raises, the call returns a structured
failure while the freshly built comment is nevertheless already stored in
`current_state["comments"]`, and the activity log is untouched. -/
theorem claim_C9_comment_stored_on_failure (env : Env) (st : ManagerState)
    (sessionId userId sectionId : String)
    (commentData : List (String × PyVal)) (sd : SessionData)
    (u : CollaborationUser) (cs : List (String × PyVal)) (e : String)
    (hs : dlookup st.activeSessions sessionId = some sd)
    (hu : dlookup sd.users userId = some u)
    (hc : dlookup sd.currentState "comments" = some (PyVal.pdict cs) ∨
      (dlookup sd.currentState "comments" = none ∧ cs = []))
    (hb : env.broadcastCommentErr = some e) :
    ((add_collaborative_comment env st sessionId userId sectionId
        commentData).2.2.success = false ∧
      (add_collaborative_comment env st sessionId userId sectionId
        commentData).2.2.error = some e) ∧
    (add_collaborative_comment env st sessionId userId sectionId
        commentData).2.1 = [] ∧
    (∃ sd2, dlookup (add_collaborative_comment env st sessionId userId
          sectionId commentData).1.activeSessions sessionId = some sd2 ∧
      dlookup sd2.currentState "comments" =
        some (PyVal.pdict (dset cs env.commentId
          (comment_value env userId u.username sectionId commentData))) ∧
      (add_collaborative_comment env st sessionId userId sectionId
          commentData).1.recentActivities = st.recentActivities) := by
  rcases hc with hc | ⟨hc, hcs⟩
  · simp only [add_collaborative_comment, hs, hu, hc, hb]
    refine ⟨?_, ?_, ?_⟩ <;> simp [dlookup_dset]
  · subst hcs
    simp only [add_collaborative_comment, hs, hu, hc, hb]
    refine ⟨?_, ?_, ?_⟩ <;> simp [dlookup_dset]

end Collab

namespace Collab

theorem claim_C7_witness :
    ((sync_research_state envC7 sampleState "s1").2.2.success = false ∧
      (sync_research_state envC7 sampleState "s1").2.2.error = some "db down") ∧
    (sync_research_state envC7 sampleState "s1").2.1 = [] ∧
    (∃ sd1, dlookup (sync_research_state envC7 sampleState "s1").1.activeSessions
        "s1" = some sd1 ∧
      sd1.lastSync = sampleSessionData.lastSync ∧
      sd1.currentState = sampleSessionData.pendingChanges.foldl
        (fun cs p => apply_pending_change cs p.2) sampleSessionData.currentState ∧
      sd1.pendingChanges = [] ∧
      (sampleSessionData.pendingChanges = [] →
        sd1.currentState = sampleSessionData.currentState)) :=
  claim_C7_sync_persist_failure envC7 sampleState "s1" sampleSessionData
    "db down" rfl rfl

theorem claim_C9_witness :
    ((add_collaborative_comment envC9 sampleState "s1" "alice" "intro"
        commentDataW).2.2.success = false ∧
      (add_collaborative_comment envC9 sampleState "s1" "alice" "intro"
        commentDataW).2.2.error = some "socket closed") ∧
    (add_collaborative_comment envC9 sampleState "s1" "alice" "intro"
        commentDataW).2.1 = [] ∧
    (∃ sd2, dlookup (add_collaborative_comment envC9 sampleState "s1" "alice"
          "intro" commentDataW).1.activeSessions "s1" = some sd2 ∧
      dlookup sd2.currentState "comments" =
        some (PyVal.pdict (dset [] envC9.commentId
          (comment_value envC9 "alice" sampleUser.username "intro"
            commentDataW))) ∧
      (add_collaborative_comment envC9 sampleState "s1" "alice" "intro"
          commentDataW).1.recentActivities = sampleState.recentActivities) :=
  claim_C9_comment_stored_on_failure envC9 sampleState "s1" "alice" "intro"
    commentDataW sampleSessionData sampleUser [] "socket closed" rfl rfl
    (Or.inr ⟨rfl, rfl⟩) rfl

end Collab

namespace Collab

/-- Claim C8 counterexample: get_session_analytics lists a conflict with
`resolved = true` — the source comprehension filters only on the session
id, never on `resolved`, contradicting the claim that no resolved conflict
is listed. -/
theorem claim_C8_counterexample :
    ((get_session_analytics c8State "s1").2.map (fun a => a.conflicts)) =
      some [c8Conflict] ∧ c8Conflict.resolved = true :=
  ⟨rfl, rfl⟩

/-- Claim C8 (amended): for every resident session, get_session_analytics
returns the member count, the online member count, the last 20 activities
in order, and exactly the conflicts whose session_id matches — resolved
conflicts included, each carrying its resolved flag — and the call mutates
no session state. -/
theorem claim_C8_analytics (st : ManagerState) (sessionId : String)
    (sd : SessionData)
    (hs : dlookup st.activeSessions sessionId = some sd) :
    (get_session_analytics st sessionId).1 = st ∧
    ∃ a, (get_session_analytics st sessionId).2 = some a ∧
      a.totalUsers = sd.users.length ∧
      a.onlineUsers = (sd.users.filter (fun p => p.2.isOnline)).length ∧
      a.recentActivities =
        ((dlookup st.recentActivities sessionId).getD []).drop
          (((dlookup st.recentActivities sessionId).getD []).length - 20) ∧
      a.recentActivities.length ≤ 20 ∧
      a.conflicts = (st.activeConflicts.map (fun p => p.2)).filter
        (fun c => c.sessionId = sessionId) ∧
      (∀ c ∈ a.conflicts, c.sessionId = sessionId) := by
  simp only [get_session_analytics, hs]
  refine ⟨trivial, _, rfl, rfl, rfl, rfl, ?_, rfl, ?_⟩
  · simp only [List.length_drop]
    omega
  · intro c hc
    have h2 := (List.mem_filter.mp hc).2
    exact of_decide_eq_true h2

theorem claim_C8_witness :
    (get_session_analytics c8State "s1").1 = c8State ∧
    ∃ a, (get_session_analytics c8State "s1").2 = some a ∧
      a.totalUsers = sampleSessionData.users.length ∧
      a.onlineUsers =
        (sampleSessionData.users.filter (fun p => p.2.isOnline)).length ∧
      a.recentActivities =
        ((dlookup c8State.recentActivities "s1").getD []).drop
          (((dlookup c8State.recentActivities "s1").getD []).length - 20) ∧
      a.recentActivities.length ≤ 20 ∧
      a.conflicts = (c8State.activeConflicts.map (fun p => p.2)).filter
        (fun c => c.sessionId = "s1") ∧
      (∀ c ∈ a.conflicts, c.sessionId = "s1") :=
  claim_C8_analytics c8State "s1" sampleSessionData rfl

end Collab

namespace Collab

/-- Shape of leave_session on the member path: locks filtered, membership
removed, activity logged, disconnect and broadcast emitted, result true.
The user_sessions bookkeeping is existentially quantified because it
depends on the user's other sessions. -/
theorem leave_session_member_shape (env : Env) (st : ManagerState)
    (sessionId userId : String) (sd : SessionData) (u : CollaborationUser)
    (hsd : dlookup st.activeSessions sessionId = some sd)
    (hu : dlookup sd.users userId = some u) :
    ∃ us2, leave_session env st sessionId userId =
      ({ activeSessions :=
           dset st.activeSessions sessionId
             { sd with users := ddel sd.users userId },
         userSessions := us2,
         sessionLocks :=
           dset st.sessionLocks sessionId
             (((dlookup st.sessionLocks sessionId).getD []).filter
               (fun p => p.2.userId ≠ userId)),
         activeConflicts := st.activeConflicts,
         recentActivities :=
           dset st.recentActivities sessionId
             (push_activity ((dlookup st.recentActivities sessionId).getD [])
               ⟨env.activityId, userId, u.username,
                ActivityType.leaveSession, PyVal.pdict [], env.now,
                sessionId⟩) },
       [Effect.disconnect ("collab_" ++ sessionId) userId,
        Effect.broadcastActivity sessionId userId ActivityType.leaveSession],
       true) := by
  simp only [leave_session, hsd, hu, log_activity]
  cases hus : dlookup st.userSessions userId with
  | none => exact ⟨st.userSessions, rfl⟩
  | some ss =>
    by_cases hss : (ss.filter (fun x => x ≠ sessionId)).isEmpty
    · simp only [hss, if_true]
      exact ⟨ddel st.userSessions userId, rfl⟩
    · simp only [hss, if_false]
      exact ⟨dset st.userSessions userId (ss.filter (fun x => x ≠ sessionId)),
        rfl⟩

/-- Claim C2: for every resident session, if user_id is a member,
leave_session releases every section lock held by that user, removes the
membership record, broadcasts a LEAVE_SESSION activity, logs it, and
returns true; if user_id is not a member (or the session is not resident),
it returns false and mutates no state. -/
theorem claim_C2_leave_session (env : Env) (st : ManagerState)
    (sessionId userId : String) :
    ((∃ sd u, dlookup st.activeSessions sessionId = some sd ∧
        dlookup sd.users userId = some u) →
      (leave_session env st sessionId userId).2.2 = true ∧
      (∀ l ∈ (dlookup (leave_session env st sessionId userId).1.sessionLocks
          sessionId).getD [], l.2.userId ≠ userId) ∧
      (∃ sd2,
        dlookup (leave_session env st sessionId userId).1.activeSessions
          sessionId = some sd2 ∧ dlookup sd2.users userId = none) ∧
      Effect.broadcastActivity sessionId userId ActivityType.leaveSession ∈
        (leave_session env st sessionId userId).2.1 ∧
      (∃ log2 a2,
        dlookup (leave_session env st sessionId userId).1.recentActivities
          sessionId = some log2 ∧
        log2.getLast? = some a2 ∧
        a2.activityType = ActivityType.leaveSession ∧
        a2.userId = userId)) ∧
    ((dlookup st.activeSessions sessionId = none ∨
       (∃ sd, dlookup st.activeSessions sessionId = some sd ∧
         dlookup sd.users userId = none)) →
      (leave_session env st sessionId userId).2.2 = false ∧
      (leave_session env st sessionId userId).1 = st ∧
      (leave_session env st sessionId userId).2.1 = []) := by
  constructor
  · rintro ⟨sd, u, hsd, hu⟩
    obtain ⟨us2, heq⟩ := leave_session_member_shape env st sessionId userId
      sd u hsd hu
    rw [heq]
    refine ⟨rfl, ?_, ⟨_, dlookup_dset _ _ _, dlookup_ddel_self _ _⟩,
      by simp, ⟨_, _, dlookup_dset _ _ _, push_activity_getLast _ _,
        rfl, rfl⟩⟩
    intro l hl
    rw [dlookup_dset, Option.getD_some] at hl
    have h2 := (List.mem_filter.mp hl).2
    exact of_decide_eq_true h2
  · rintro (hnone | ⟨sd, hsd, hu⟩)
    · simp [leave_session, hnone]
    · simp [leave_session, hsd, hu]

end Collab

namespace Collab

theorem claim_C2_witness :
    (∃ sd u, dlookup sampleState.activeSessions "s1" = some sd ∧
       dlookup sd.users "alice" = some u) ∧
    (leave_session envW sampleState "s1" "alice").2.2 = true ∧
    (leave_session envW sampleState "s1" "bob").2.2 = false ∧
    (leave_session envW sampleState "s1" "bob").1 = sampleState :=
  ⟨⟨sampleSessionData, sampleUser, rfl, rfl⟩,
   ((claim_C2_leave_session envW sampleState "s1" "alice").1
     ⟨sampleSessionData, sampleUser, rfl, rfl⟩).1,
   ((claim_C2_leave_session envW sampleState "s1" "bob").2
     (Or.inr ⟨sampleSessionData, rfl, rfl⟩)).1,
   ((claim_C2_leave_session envW sampleState "s1" "bob").2
     (Or.inr ⟨sampleSessionData, rfl, rfl⟩)).2.1⟩

/-- Shape of handle_real_time_edit on the successful path: the merged edit
stored, the edit broadcast, the EDIT_CONTENT activity logged, success with
the generated edit id.  The lock table is existentially quantified: it
gains a fresh lock when the section was unlocked and is unchanged when the
caller already held it. -/
theorem handle_edit_success_shape (env : Env) (st : ManagerState)
    (sessionId userId sectionId : String)
    (editData : List (String × PyVal)) (sd : SessionData)
    (u : CollaborationUser)
    (hsd : dlookup st.activeSessions sessionId = some sd)
    (hu : dlookup sd.users userId = some u)
    (hrole : roleCanEdit u.role = true)
    (hconf : env.conflictCheck = none)
    (hlock : dlookup ((dlookup st.sessionLocks sessionId).getD [])
        sectionId = none ∨
      (∃ li, dlookup ((dlookup st.sessionLocks sessionId).getD [])
          sectionId = some li ∧ li.userId = userId))
    (hbc : env.broadcastEditErr = none) :
    ∃ locks2, handle_real_time_edit env st sessionId userId sectionId
        editData =
      ({ activeSessions :=
           dset st.activeSessions sessionId
             { sd with currentState :=
                 (dset sd.currentState sectionId
                   (merge_edit (dlookup sd.currentState sectionId)
                     editData)) },
         userSessions := st.userSessions,
         sessionLocks := locks2,
         activeConflicts := st.activeConflicts,
         recentActivities :=
           dset st.recentActivities sessionId
             (push_activity ((dlookup st.recentActivities sessionId).getD [])
               ⟨env.activityId, userId, u.username,
                ActivityType.editContent,
                PyVal.pdict
                  [("section_id", PyVal.pstr sectionId),
                   ("edit_type",
                     (dlookup editData "type").getD (PyVal.pstr "unknown"))],
                env.now, sessionId⟩) },
       [Effect.broadcastEdit sessionId userId sectionId editData],
       { success := true, editId := some env.editId }) := by
  simp only [handle_real_time_edit, hsd, hu, hrole, hconf, hbc,
    log_activity]
  rcases hlock with hl | ⟨li, hl, hli⟩
  · simp only [hl]
    exact ⟨_, rfl⟩
  · simp only [hl, hli, if_pos rfl]
    exact ⟨_, rfl⟩

/-- Claim C1: for every resident session with a registered member whose
role permits editing, a handle_real_time_edit call with no detected
conflict, a free or caller-held section lock, and a successful broadcast
merges edit_data into current_state[section_id] (leaving other keys
unchanged), broadcasts the applied edit, logs an EDIT_CONTENT activity,
and returns success together with the generated edit id. -/
theorem claim_C1_edit_applied (env : Env) (st : ManagerState)
    (sessionId userId sectionId : String)
    (editData : List (String × PyVal)) (sd : SessionData)
    (u : CollaborationUser)
    (hsd : dlookup st.activeSessions sessionId = some sd)
    (hu : dlookup sd.users userId = some u)
    (hrole : roleCanEdit u.role = true)
    (hconf : env.conflictCheck = none)
    (hlock : dlookup ((dlookup st.sessionLocks sessionId).getD [])
        sectionId = none ∨
      (∃ li, dlookup ((dlookup st.sessionLocks sessionId).getD [])
          sectionId = some li ∧ li.userId = userId))
    (hbc : env.broadcastEditErr = none) :
    (handle_real_time_edit env st sessionId userId sectionId
        editData).2.2 =
      { success := true, editId := some env.editId } ∧
    (∃ sd2, dlookup (handle_real_time_edit env st sessionId userId sectionId
          editData).1.activeSessions sessionId = some sd2 ∧
      dlookup sd2.currentState sectionId =
        some (merge_edit (dlookup sd.currentState sectionId) editData) ∧
      (∀ k2, k2 ≠ sectionId →
        dlookup sd2.currentState k2 = dlookup sd.currentState k2)) ∧
    Effect.broadcastEdit sessionId userId sectionId editData ∈
      (handle_real_time_edit env st sessionId userId sectionId
        editData).2.1 ∧
    (∃ log2 a2,
      dlookup (handle_real_time_edit env st sessionId userId sectionId
          editData).1.recentActivities sessionId = some log2 ∧
      log2.getLast? = some a2 ∧
      a2.activityType = ActivityType.editContent ∧
      a2.userId = userId) := by
  obtain ⟨locks2, heq⟩ := handle_edit_success_shape env st sessionId userId
    sectionId editData sd u hsd hu hrole hconf hlock hbc
  rw [heq]
  refine ⟨rfl,
    ⟨_, dlookup_dset _ _ _, dlookup_dset _ _ _, ?_⟩,
    by simp,
    ⟨_, _, dlookup_dset _ _ _, push_activity_getLast _ _, rfl, rfl⟩⟩
  intro k2 hk2
  exact dlookup_dset_ne _ _ _ _ hk2

end Collab

namespace Collab

theorem claim_C1_witness :
    roleCanEdit sampleUser.role = true ∧
    ((handle_real_time_edit envC1 sampleState "s1" "alice" "intro"
        editDataW).2.2 =
      { success := true, editId := some "edit-1" } ∧
    (∃ sd2, dlookup (handle_real_time_edit envC1 sampleState "s1" "alice"
          "intro" editDataW).1.activeSessions "s1" = some sd2 ∧
      dlookup sd2.currentState "intro" =
        some (merge_edit (dlookup sampleSessionData.currentState "intro")
          editDataW) ∧
      (∀ k2, k2 ≠ "intro" →
        dlookup sd2.currentState k2 =
          dlookup sampleSessionData.currentState k2)) ∧
    Effect.broadcastEdit "s1" "alice" "intro" editDataW ∈
      (handle_real_time_edit envC1 sampleState "s1" "alice" "intro"
        editDataW).2.1 ∧
    (∃ log2 a2,
      dlookup (handle_real_time_edit envC1 sampleState "s1" "alice" "intro"
          editDataW).1.recentActivities "s1" = some log2 ∧
      log2.getLast? = some a2 ∧
      a2.activityType = ActivityType.editContent ∧
      a2.userId = "alice")) :=
  ⟨rfl,
   claim_C1_edit_applied envC1 sampleState "s1" "alice" "intro" editDataW
     sampleSessionData sampleUser rfl rfl rfl rfl (Or.inl rfl) rfl⟩

end Collab

namespace Collab

open Difflib PyStr

theorem classify_fst_length (lines1 lines2 : List Line)
    (ops : List Opcode) :
    (classifyOpcodes lines1 lines2 ops).1.length =
      ops.countP (opMergeable lines1 lines2) := by
  induction ops with
  | nil => rfl
  | cons op rest ih =>
    cases htag : op.tag with
    | replace =>
      by_cases hcomp : are_changes_compatible (slice lines1 op.i1 op.i2)
          (slice lines2 op.j1 op.j2) = true
      · simp [classifyOpcodes, htag, hcomp, opMergeable, List.countP_cons,
          ih]
      · simp [classifyOpcodes, htag, hcomp, opMergeable, List.countP_cons,
          ih, Bool.not_eq_true]
    | insert =>
      simp [classifyOpcodes, htag, opMergeable, List.countP_cons, ih]
    | delete =>
      simp [classifyOpcodes, htag, opMergeable, List.countP_cons, ih]
    | equal =>
      simp [classifyOpcodes, htag, opMergeable, List.countP_cons, ih]

theorem classify_snd_length (lines1 lines2 : List Line)
    (ops : List Opcode) :
    (classifyOpcodes lines1 lines2 ops).2.length =
      ops.countP (opConflicting lines1 lines2) := by
  induction ops with
  | nil => rfl
  | cons op rest ih =>
    cases htag : op.tag with
    | replace =>
      by_cases hcomp : are_changes_compatible (slice lines1 op.i1 op.i2)
          (slice lines2 op.j1 op.j2) = true
      · simp [classifyOpcodes, htag, hcomp, opConflicting,
          List.countP_cons, ih]
      · simp [classifyOpcodes, htag, hcomp, opConflicting,
          List.countP_cons, ih, Bool.not_eq_true]
    | insert =>
      simp [classifyOpcodes, htag, opConflicting, List.countP_cons, ih]
    | delete =>
      simp [classifyOpcodes, htag, opConflicting, List.countP_cons, ih]
    | equal =>
      simp [classifyOpcodes, htag, opConflicting, List.countP_cons, ih]

theorem classify_snd_nil_iff (lines1 lines2 : List Line)
    (ops : List Opcode) :
    (classifyOpcodes lines1 lines2 ops).2 = [] ↔
      (∀ op ∈ ops, op.tag = Tag.replace →
        are_changes_compatible (slice lines1 op.i1 op.i2)
          (slice lines2 op.j1 op.j2) = true) := by
  induction ops with
  | nil => simp [classifyOpcodes]
  | cons op rest ih =>
    cases htag : op.tag with
    | replace =>
      by_cases hcomp : are_changes_compatible (slice lines1 op.i1 op.i2)
          (slice lines2 op.j1 op.j2) = true
      · simp only [classifyOpcodes, htag, hcomp, if_true]
        rw [ih]
        constructor
        · intro h op2 hop2 ht2
          rcases List.mem_cons.mp hop2 with he | hm
          · subst he
            exact hcomp
          · exact h op2 hm ht2
        · intro h op2 hop2 ht2
          exact h op2 (List.mem_cons_of_mem _ hop2) ht2
      · simp only [classifyOpcodes, htag, hcomp, if_false]
        constructor
        · intro h
          cases h
        · intro h
          exact absurd (h op (List.mem_cons_self _ _) htag) hcomp
    | insert =>
      simp only [classifyOpcodes, htag]
      rw [ih]
      constructor
      · intro h op2 hop2 ht2
        rcases List.mem_cons.mp hop2 with he | hm
        · subst he
          simp [htag] at ht2
        · exact h op2 hm ht2
      · intro h op2 hop2 ht2
        exact h op2 (List.mem_cons_of_mem _ hop2) ht2
    | delete =>
      simp only [classifyOpcodes, htag]
      rw [ih]
      constructor
      · intro h op2 hop2 ht2
        rcases List.mem_cons.mp hop2 with he | hm
        · subst he
          simp [htag] at ht2
        · exact h op2 hm ht2
      · intro h op2 hop2 ht2
        exact h op2 (List.mem_cons_of_mem _ hop2) ht2
    | equal =>
      simp only [classifyOpcodes, htag]
      rw [ih]
      constructor
      · intro h op2 hop2 ht2
        rcases List.mem_cons.mp hop2 with he | hm
        · subst he
          simp [htag] at ht2
        · exact h op2 hm ht2
      · intro h op2 hop2 ht2
        exact h op2 (List.mem_cons_of_mem _ hop2) ht2

end Collab

namespace Collab

open Difflib PyStr


theorem ratioQ_lt_half_iff {α : Type} [DecidableEq α] (a b : List α) :
    ratioQ a b < (1 : ℚ) / 2 ↔
      4 * matchTotal a b < a.length + b.length := by
  unfold ratioQ
  by_cases ht : a.length + b.length = 0
  · rw [if_pos ht, ht]
    norm_num
  · rw [if_neg ht]
    have hpos : (0 : ℚ) < ((a.length : ℚ) + (b.length : ℚ)) := by
      have h1 : 0 < a.length + b.length := Nat.pos_of_ne_zero ht
      exact_mod_cast h1
    rw [div_lt_div_iff₀ hpos (by norm_num)]
    constructor
    · intro h
      have h2 : (4 * matchTotal a b : ℚ) < (a.length : ℚ) + b.length := by
        linarith
      exact_mod_cast h2
    · intro h
      have h2 : (4 * matchTotal a b : ℚ) < (a.length : ℚ) + b.length := by
        exact_mod_cast h
      linarith

theorem confidence_gt_710_iff (m c : Nat) :
    (7 : ℚ) / 10 < (m : ℚ) / (max (m + c) 1 : ℚ) ↔
      7 * max (m + c) 1 < 10 * m := by
  have hd : (0 : ℚ) < (max (m + c) 1 : ℚ) := by
    have h1 : 0 < max (m + c) 1 :=
      lt_of_lt_of_le Nat.zero_lt_one (le_max_right _ _)
    exact_mod_cast h1
  rw [div_lt_div_iff₀ (by norm_num) hd]
  constructor
  · intro h
    have h2 : (7 : ℚ) * (max (m + c) 1 : ℚ) < (10 : ℚ) * (m : ℚ) := by
      linarith
    exact_mod_cast h2
  · intro h
    have h2 : (7 : ℚ) * (max (m + c) 1 : ℚ) < (10 : ℚ) * (m : ℚ) := by
      exact_mod_cast h
    linarith

theorem are_changes_compatible_iff (lines1 lines2 : List Line) :
    are_changes_compatible lines1 lines2 = true ↔
      (lines1.length = lines2.length ∧
        ∀ p ∈ lines1.zip lines2, stripNonempty p.1 = true →
          stripNonempty p.2 = true →
          ¬ (ratioQ p.1 p.2 < (1 : ℚ) / 2)) := by
  simp only [are_changes_compatible, decide_eq_true_eq, List.all_eq_true]
  constructor
  · rintro ⟨hlen, hall⟩
    refine ⟨hlen, ?_⟩
    intro p hp h1 h2
    have h3 := hall p hp
    rw [if_pos ⟨h1, h2⟩] at h3
    rw [ratioQ_lt_half_iff]
    simpa using h3
  · rintro ⟨hlen, hall⟩
    refine ⟨hlen, ?_⟩
    intro p hp
    by_cases hc : stripNonempty p.1 = true ∧ stripNonempty p.2 = true
    · rw [if_pos hc]
      have h4 := hall p hp hc.1 hc.2
      rw [ratioQ_lt_half_iff] at h4
      simpa using h4
    · rw [if_neg hc]

theorem spec_compat_implies_compat (l1 l2 : List Line)
    (h : spec_changes_compatible l1 l2 = true) :
    are_changes_compatible l1 l2 = true := by
  simp only [spec_changes_compatible, decide_eq_true_eq,
    List.all_eq_true] at h
  simp only [are_changes_compatible, decide_eq_true_eq, List.all_eq_true]
  obtain ⟨hlen, hall⟩ := h
  refine ⟨hlen, ?_⟩
  intro p hp
  by_cases hc : stripNonempty p.1 = true ∧ stripNonempty p.2 = true
  · rw [if_pos hc]
    have h2 := hall p hp
    rw [ratioQ_lt_half_iff] at h2
    simpa using h2
  · rw [if_neg hc]

theorem spec_changes_compatible_of_nat (l1 l2 : List Line)
    (hlen : l1.length = l2.length)
    (hall : (l1.zip l2).all
      (fun p => ¬ (4 * matchTotal p.1 p.2 <
        p.1.length + p.2.length)) = true) :
    spec_changes_compatible l1 l2 = true := by
  simp only [spec_changes_compatible, decide_eq_true_eq, List.all_eq_true]
  rw [List.all_eq_true] at hall
  refine ⟨hlen, ?_⟩
  intro p hp
  have h2 := hall p hp
  rw [decide_eq_true_eq] at h2
  rw [ratioQ_lt_half_iff]
  exact h2

theorem mergedLineList_mem (lines1 lines2 : List Line)
    (ops : List Opcode) (op : Opcode) (hop : op ∈ ops) :
    (op.tag = Tag.equal → ∀ l ∈ slice lines1 op.i1 op.i2,
      l ∈ mergedLineList lines1 lines2 ops) ∧
    (op.tag = Tag.insert → ∀ l ∈ slice lines2 op.j1 op.j2,
      l ∈ mergedLineList lines1 lines2 ops) := by
  induction ops with
  | nil => cases hop
  | cons op0 rest ih =>
    rcases List.mem_cons.mp hop with heq | hmem
    · subst heq
      constructor
      · intro ht l hl
        simp only [mergedLineList, ht]
        exact List.mem_append.mpr (Or.inl hl)
      · intro ht l hl
        simp only [mergedLineList, ht]
        exact List.mem_append.mpr (Or.inl hl)
    · constructor
      · intro ht l hl
        simp only [mergedLineList]
        exact List.mem_append.mpr (Or.inr ((ih hmem).1 ht l hl))
      · intro ht l hl
        simp only [mergedLineList]
        exact List.mem_append.mpr (Or.inr ((ih hmem).2 ht l hl))

end Collab

namespace Collab

open Difflib PyStr

/-- Claim C3 (amended): for every pair of contents, the analysis sets
can_auto_merge to true iff there is no incompatible replace region and the
ratio mergeable over max(mergeable + conflicting, 1) exceeds 0.7 — where a
replace region is compatible iff the replacement ranges have equal line
counts and every corresponding pair of lines that are both non-blank has
normalized edit similarity at least 0.5 (the source exempts pairs in which
either line is blank from the similarity requirement). -/
theorem claim_C3_auto_merge_iff (content1 content2 : List Char) :
    (analyze_changes_for_merging content1 content2).canAutoMerge = true ↔
    ((∀ op ∈ getOpcodes (splitlines content1) (splitlines content2),
        op.tag = Tag.replace →
        ((slice (splitlines content1) op.i1 op.i2).length =
            (slice (splitlines content2) op.j1 op.j2).length ∧
          ∀ p ∈ (slice (splitlines content1) op.i1 op.i2).zip
              (slice (splitlines content2) op.j1 op.j2),
            stripNonempty p.1 = true → stripNonempty p.2 = true →
            ¬ (ratioQ p.1 p.2 < (1 : ℚ) / 2))) ∧
      (7 : ℚ) / 10 <
        (((getOpcodes (splitlines content1) (splitlines content2)).countP
            (opMergeable (splitlines content1) (splitlines content2)) : ℚ) /
          (max
            ((getOpcodes (splitlines content1)
                (splitlines content2)).countP
              (opMergeable (splitlines content1) (splitlines content2)) +
              (getOpcodes (splitlines content1)
                  (splitlines content2)).countP
                (opConflicting (splitlines content1) (splitlines content2)))
            1 : ℚ))) := by
  simp only [analyze_changes_for_merging, Bool.and_eq_true,
    decide_eq_true_eq]
  rw [List.length_eq_zero, classify_snd_nil_iff, classify_fst_length,
    classify_snd_length, ← confidence_gt_710_iff]
  simp only [are_changes_compatible_iff]

/-- Claim C3 counterexample: for contents "x\ny" and "\ny" the source
auto-merges (the blank second line exempts the pair ("x", "") from the
similarity check), yet that pair has similarity 0 < 0.5, so under the
claim's wording of compatibility there is an incompatible replace region
and the claimed equivalence fails at this input. -/
theorem claim_C3_counterexample :
    (analyze_changes_for_merging "x\ny".toList "\ny".toList).canAutoMerge =
      true ∧
    ¬ (∀ op ∈ getOpcodes (splitlines "x\ny".toList)
          (splitlines "\ny".toList),
        op.tag = Tag.replace →
        spec_changes_compatible
          (slice (splitlines "x\ny".toList) op.i1 op.i2)
          (slice (splitlines "\ny".toList) op.j1 op.j2) = true) := by
  constructor
  · decide
  · intro h
    have hmem : (⟨Tag.replace, 0, 1, 0, 1⟩ : Opcode) ∈
        getOpcodes (splitlines "x\ny".toList) (splitlines "\ny".toList) := by
      decide
    have hc := h _ hmem rfl
    simp only [spec_changes_compatible, decide_eq_true_eq,
      List.all_eq_true] at hc
    obtain ⟨-, hall⟩ := hc
    have hp := hall ("x".toList, ([] : List Char)) (by decide)
    have hratio : ratioQ "x".toList ([] : List Char) < (1 : ℚ) / 2 := by
      rw [ratioQ_lt_half_iff]
      decide
    exact hp hratio

end Collab

namespace Collab

open Difflib PyStr

/-- Claim C4 (amended): for every two contents with at least one differing
diff region, whose replace regions all have equal line counts with
pairwise line similarity at least 0.5 (the claim's compatibility, which
implies the source's), resolving with merge_changes reports
can_auto_merge = true with zero listed conflicts, returns the
reconstructed merge, and that merge contains every line of every equal
region and every insert region. -/
theorem claim_C4_compatible_auto_merge (content1 content2 : List Char)
    (hdiff : ∃ op ∈ getOpcodes (splitlines content1) (splitlines content2),
      op.tag ≠ Tag.equal)
    (hcomp : ∀ op ∈ getOpcodes (splitlines content1) (splitlines content2),
      op.tag = Tag.replace →
      spec_changes_compatible (slice (splitlines content1) op.i1 op.i2)
        (slice (splitlines content2) op.j1 op.j2) = true) :
    (analyze_changes_for_merging content1 content2).canAutoMerge = true ∧
    (analyze_changes_for_merging content1 content2).conflicts = [] ∧
    (merge_conflicting_changes content1 content2).1 =
      some (perform_automatic_merge content1 content2) ∧
    (∀ op ∈ getOpcodes (splitlines content1) (splitlines content2),
      (op.tag = Tag.equal →
        ∀ l ∈ slice (splitlines content1) op.i1 op.i2,
          l ∈ mergedLineList (splitlines content1) (splitlines content2)
            (getOpcodes (splitlines content1) (splitlines content2))) ∧
      (op.tag = Tag.insert →
        ∀ l ∈ slice (splitlines content2) op.j1 op.j2,
          l ∈ mergedLineList (splitlines content1) (splitlines content2)
            (getOpcodes (splitlines content1) (splitlines content2)))) := by
  have hcode : ∀ op ∈ getOpcodes (splitlines content1)
      (splitlines content2), op.tag = Tag.replace →
      are_changes_compatible
        (slice (splitlines content1) op.i1 op.i2)
        (slice (splitlines content2) op.j1 op.j2) = true :=
    fun op hop ht => spec_compat_implies_compat _ _ (hcomp op hop ht)
  have hnil : (classifyOpcodes (splitlines content1) (splitlines content2)
      (getOpcodes (splitlines content1) (splitlines content2))).2 = [] :=
    (classify_snd_nil_iff _ _ _).mpr hcode
  have hm : 0 < (getOpcodes (splitlines content1)
      (splitlines content2)).countP
      (opMergeable (splitlines content1) (splitlines content2)) := by
    rw [List.countP_pos_iff]
    obtain ⟨op, hop, ht⟩ := hdiff
    refine ⟨op, hop, ?_⟩
    cases htag : op.tag with
    | replace => simpa [opMergeable, htag] using hcode op hop htag
    | insert => simp [opMergeable, htag]
    | delete => simp [opMergeable, htag]
    | equal => exact absurd htag ht
  have hc0 : (getOpcodes (splitlines content1)
      (splitlines content2)).countP
      (opConflicting (splitlines content1) (splitlines content2)) = 0 := by
    rw [← classify_snd_length, hnil]
    rfl
  have hcan : (analyze_changes_for_merging content1 content2).canAutoMerge =
      true := by
    simp only [analyze_changes_for_merging, Bool.and_eq_true,
      decide_eq_true_eq]
    rw [classify_fst_length, classify_snd_length]
    refine ⟨by rw [hc0], ?_⟩
    rw [hc0]
    have hmax : max ((getOpcodes (splitlines content1)
        (splitlines content2)).countP
        (opMergeable (splitlines content1) (splitlines content2)) + 0) 1 =
        (getOpcodes (splitlines content1) (splitlines content2)).countP
          (opMergeable (splitlines content1) (splitlines content2)) := by
      omega
    rw [hmax]
    omega
  refine ⟨hcan, ?_, ?_, ?_⟩
  · simp only [analyze_changes_for_merging]
    exact hnil
  · simp only [merge_conflicting_changes, hcan, if_true]
  · intro op hop
    exact mergedLineList_mem _ _ _ op hop

/-- Claim C4 counterexample: the contents "a" and "a\n" differ, their diff
has no differing region at the line level (both split into the single line
"a"), so the claim's hypothesis holds vacuously — yet can_auto_merge is
false because the confidence ratio 0 / max(0, 1) does not exceed 0.7. -/
theorem claim_C4_counterexample :
    (∀ op ∈ getOpcodes (splitlines "a".toList) (splitlines "a\n".toList),
      op.tag = Tag.replace →
      spec_changes_compatible
        (slice (splitlines "a".toList) op.i1 op.i2)
        (slice (splitlines "a\n".toList) op.j1 op.j2) = true) ∧
    "a".toList ≠ "a\n".toList ∧
    (analyze_changes_for_merging "a".toList "a\n".toList).canAutoMerge =
      false := by
  refine ⟨?_, by decide, by decide⟩
  intro op hop htag
  have hops : getOpcodes (splitlines "a".toList)
      (splitlines "a\n".toList) = [⟨Tag.equal, 0, 1, 0, 1⟩] := by decide
  rw [hops] at hop
  have heq : op = ⟨Tag.equal, 0, 1, 0, 1⟩ := List.mem_singleton.mp hop
  rw [heq] at htag
  cases htag

end Collab

namespace Collab

open Difflib PyStr

theorem claim_C4_witness :
    (∃ op ∈ getOpcodes (splitlines "hello world\ncommon".toList)
        (splitlines "hello there\ncommon".toList),
      op.tag ≠ Tag.equal) ∧
    ((analyze_changes_for_merging "hello world\ncommon".toList
        "hello there\ncommon".toList).canAutoMerge = true ∧
      (analyze_changes_for_merging "hello world\ncommon".toList
        "hello there\ncommon".toList).conflicts = [] ∧
      (merge_conflicting_changes "hello world\ncommon".toList
        "hello there\ncommon".toList).1 =
        some (perform_automatic_merge "hello world\ncommon".toList
          "hello there\ncommon".toList) ∧
      (∀ op ∈ getOpcodes (splitlines "hello world\ncommon".toList)
          (splitlines "hello there\ncommon".toList),
        (op.tag = Tag.equal →
          ∀ l ∈ slice (splitlines "hello world\ncommon".toList) op.i1 op.i2,
            l ∈ mergedLineList (splitlines "hello world\ncommon".toList)
              (splitlines "hello there\ncommon".toList)
              (getOpcodes (splitlines "hello world\ncommon".toList)
                (splitlines "hello there\ncommon".toList))) ∧
        (op.tag = Tag.insert →
          ∀ l ∈ slice (splitlines "hello there\ncommon".toList) op.j1 op.j2,
            l ∈ mergedLineList (splitlines "hello world\ncommon".toList)
              (splitlines "hello there\ncommon".toList)
              (getOpcodes (splitlines "hello world\ncommon".toList)
                (splitlines "hello there\ncommon".toList))))) := by
  have hdiff : ∃ op ∈ getOpcodes (splitlines "hello world\ncommon".toList)
      (splitlines "hello there\ncommon".toList), op.tag ≠ Tag.equal := by
    decide
  have hcomp : ∀ op ∈ getOpcodes (splitlines "hello world\ncommon".toList)
      (splitlines "hello there\ncommon".toList),
      op.tag = Tag.replace →
      spec_changes_compatible
        (slice (splitlines "hello world\ncommon".toList) op.i1 op.i2)
        (slice (splitlines "hello there\ncommon".toList) op.j1 op.j2) =
        true := by
    intro op hop htag
    have hops : getOpcodes (splitlines "hello world\ncommon".toList)
        (splitlines "hello there\ncommon".toList) =
        [⟨Tag.replace, 0, 1, 0, 1⟩, ⟨Tag.equal, 1, 2, 1, 2⟩] := by decide
    rw [hops] at hop
    rcases List.mem_cons.mp hop with heq | hmem
    · rw [heq]
      exact spec_changes_compatible_of_nat _ _ (by decide) (by decide)
    · have heq2 : op = ⟨Tag.equal, 1, 2, 1, 2⟩ := List.mem_singleton.mp hmem
      rw [heq2] at htag
      cases htag
  exact ⟨hdiff, claim_C4_compatible_auto_merge _ _ hdiff hcomp⟩

end Collab
